import Mathlib

/-! # Formal model of the actions-runner-controller scaling core

A shallow embedding, in Lean 4, of the components of the
actions-runner-controller repository that its specification describes:

* the GitHub client registration-token cache (`github/github.go`:
  `GetRegistrationToken` and `cleanup`) and the per-runner busy-status
  probe (`IsRunnerBusy`);
* the runner-scale-set listener: the message loop body of
  `messageLoop.runAndNotify` and the session bootstrap
  `createRunnerScaleSetSession`;
* the `RunnerReplicaSetReconciler.Reconcile` control loop that converges
  the live runner fleet toward the desired replica count.

Conventions used throughout:

* `time.Time` values are modelled as `Int` (seconds since an arbitrary
  epoch) and `time.Duration` values as `Int` numbers of seconds; Go's
  `t.After u` is `u < t`, `t.Before u` is `t < u`, `t.Sub u` is `t - u`
  and `t.Add d` is `t + d`.
* Go `(value, error)` pairs become products with `Option` error
  components, and the distinguished error types that the callers branch
  on (`RunnerNotFound`, `RunnerOffline`, `RateLimitError`,
  `MessageQueueTokenExpiredError`) become inductive tags.
* Network calls are modelled by oracle arguments (functions or `Option`
  values supplied by the caller) describing the remote side's answer.
* Mutex acquisition and the cache accesses it guards are reified into an
  event trace, so the lock discipline is itself a provable statement;
  the goroutine spawned for `cleanup` is scheduled immediately after the
  write that triggers it (one admissible interleaving).
-/

/-! ## `github/github.go`: registration-token cache -/

/-- `github.RegistrationToken` (google/go-github): a token string together
with its expiration instant (`GetExpiresAt`). -/
structure RegistrationToken where
  token : String
  expiresAt : Int
deriving DecidableEq

/-- `splitOwnerAndRepo` from `github/github.go`: splits `owner/name` on
`/`, rejecting anything without exactly two chunks. -/
def splitOwnerAndRepo (repo : String) : Except String (String × String) :=
  match repo.splitOn "/" with
  | [owner, repository] => Except.ok (owner, repository)
  | _ => Except.error ("invalid repository name: " ++ repo)

/-- `getEnterpriseOrganizationAndRepo` from `github/github.go`: validates
the scope arguments; at least one of them must be non-empty. -/
def getEnterpriseOrganizationAndRepo (enterprise org repo : String) :
    Except String (String × String × String) :=
  if 0 < repo.length then
    match splitOwnerAndRepo repo with
    | Except.ok (owner, repository) => Except.ok ("", owner, repository)
    | Except.error e => Except.error e
  else if 0 < org.length then Except.ok ("", org, "")
  else if 0 < enterprise.length then Except.ok (enterprise, "", "")
  else Except.error "enterprise, organization and repository are all empty"

/-- `getRegistrationKey` from `github/github.go`: the cache key for a
given scope; note that it is computed from the caller's original
arguments, before validation rewrites them. -/
def getRegistrationKey (org repo enterprise : String) : String :=
  "org=" ++ org ++ ",repo=" ++ repo ++ ",enterprise=" ++ enterprise

/-- `runnerStartupTimeout` in `Client.GetRegistrationToken`: the
30-minute margin by which a runner just starting up may miss the token
expiration date (`30 * time.Minute`, in seconds here). -/
def runnerStartupTimeout : Int := 30 * 60

/-- The `regTokens` map of `github.Client`, modelled as an association
list keyed by the registration key. -/
abbrev RegTokenCache := List (String × RegistrationToken)

/-- Go map read `c.regTokens[key]`. -/
def lookupToken (cache : RegTokenCache) (key : String) :
    Option RegistrationToken :=
  match cache.find? (fun kv => kv.1 == key) with
  | some kv => some kv.2
  | none => none

/-- Go map write `c.regTokens[key] = rt` (replaces any previous binding
for the key). -/
def storeToken (cache : RegTokenCache) (key : String)
    (rt : RegistrationToken) : RegTokenCache :=
  (key, rt) :: cache.filter (fun kv => !(kv.1 == key))

/-- `Client.cleanup` from `github/github.go`: drops every cached token
whose `ExpiresAt` lies strictly in the past (`Before(time.Now())`). -/
def cleanup (now : Int) (cache : RegTokenCache) : RegTokenCache :=
  cache.filter (fun kv => !(decide (kv.2.expiresAt < now)))

/-- One observable action of `GetRegistrationToken`/`cleanup` on the
shared client state: mutex operations, cache accesses under them, and
the GitHub API call that mints a fresh token. -/
inductive RegEvent
  | lock
  | unlock
  | cacheRead (key : String)
  | cacheWrite (key : String)
  | cacheDelete (key : String)
  | fetchedToken
deriving DecidableEq

/-- Checks that every cache access in a trace happens while the mutex is
held (`d` is the current hold depth) and that unlocks are balanced. -/
def accessesGuarded (d : Nat) : List RegEvent → Bool
  | [] => true
  | RegEvent.lock :: es => accessesGuarded (d + 1) es
  | RegEvent.unlock :: es => decide (0 < d) && accessesGuarded (d - 1) es
  | RegEvent.cacheRead _ :: es => decide (0 < d) && accessesGuarded d es
  | RegEvent.cacheWrite _ :: es => decide (0 < d) && accessesGuarded d es
  | RegEvent.cacheDelete _ :: es => decide (0 < d) && accessesGuarded d es
  | RegEvent.fetchedToken :: es => accessesGuarded d es

/-- Result of one `GetRegistrationToken` call: the returned token (when
any), whether an error was returned, the client's cache afterwards, and
the trace of lock/cache/API events the call performed. -/
structure RegTokenResult where
  token : Option RegistrationToken
  isError : Bool
  cache : RegTokenCache
  events : List RegEvent
deriving DecidableEq

/-- `Client.GetRegistrationToken` from `github/github.go`.

The whole body runs under `c.mu` (taken on entry, released by `defer`);
a cached token is reused only when its expiry is more than
`runnerStartupTimeout` in the future (`rt.GetExpiresAt().After(now.Add
runnerStartupTimeout)`), otherwise a fresh token is requested from the
API (`fetch` is the oracle for `createRegistrationToken`: `none` for a
transport error, otherwise the token and HTTP status, accepted only when
the status is 201), stored under the same key, and a goroutine running
`cleanup` is spawned; the goroutine's critical section is scheduled
right after the triggering call releases the mutex.  On a validation
error Go returns the stale `rt` pointer together with the error, which
is preserved here. -/
def tokenFresh (now : Int) : Option RegistrationToken → Bool
  | some rt => decide (now + runnerStartupTimeout < rt.expiresAt)
  | none => false

/-- See the comment above `tokenFresh`; this is the body of
`Client.GetRegistrationToken`. -/
def GetRegistrationToken (now : Int)
    (fetch : Option (RegistrationToken × Nat)) (cache : RegTokenCache)
    (enterprise org repo : String) : RegTokenResult :=
  let key := getRegistrationKey org repo enterprise
  let rt? := lookupToken cache key
  if tokenFresh now rt? then
    { token := rt?, isError := false, cache := cache
      events := [RegEvent.lock, RegEvent.cacheRead key, RegEvent.unlock] }
  else
    match getEnterpriseOrganizationAndRepo enterprise org repo with
    | Except.error _ =>
      { token := rt?, isError := true, cache := cache
        events := [RegEvent.lock, RegEvent.cacheRead key, RegEvent.unlock] }
    | Except.ok _ =>
      match fetch with
      | none =>
        { token := none, isError := true, cache := cache
          events := [RegEvent.lock, RegEvent.cacheRead key,
                     RegEvent.fetchedToken, RegEvent.unlock] }
      | some (rt, status) =>
        if status ≠ 201 then
          { token := none, isError := true, cache := cache
            events := [RegEvent.lock, RegEvent.cacheRead key,
                       RegEvent.fetchedToken, RegEvent.unlock] }
        else
          let cache1 := storeToken cache key rt
          { token := some rt, isError := false
            cache := cleanup now cache1
            events :=
              [RegEvent.lock, RegEvent.cacheRead key,
               RegEvent.fetchedToken, RegEvent.cacheWrite key,
               RegEvent.unlock, RegEvent.lock] ++
              (cache1.filter (fun kv => decide (kv.2.expiresAt < now))).map
                (fun kv => RegEvent.cacheDelete kv.1) ++
              [RegEvent.unlock] }

/-! ## `github/github.go`: the busy-status probe -/

/-- One runner record as reported by the GitHub list-runners API:
`runner.GetName()`, `runner.GetStatus()`, `runner.GetBusy()`. -/
structure GhRunner where
  name : String
  status : String
  busy : Bool
deriving DecidableEq

/-- The distinguished probe error types of `github/github.go`:
`RunnerNotFound` and `RunnerOffline`, each carrying the runner name. -/
inductive RunnerBusyError
  | runnerNotFound (runnerName : String)
  | runnerOffline (runnerName : String)
deriving DecidableEq

/-- `Client.IsRunnerBusy` from `github/github.go`, given the runner list
that `ListRunners` returned: scan for the first runner with the queried
name; an `offline` match yields its busy flag together with a
`RunnerOffline` error, any other match yields the busy flag with no
error, and no match yields `(false, RunnerNotFound)`. -/
def IsRunnerBusy (name : String) : List GhRunner → Bool × Option RunnerBusyError
  | [] => (false, some (RunnerBusyError.runnerNotFound name))
  | r :: rest =>
    if r.name == name then
      if r.status == "offline" then
        (r.busy, some (RunnerBusyError.runnerOffline name))
      else
        (r.busy, none)
    else
      IsRunnerBusy name rest

/-! ## The scale-set listener message loop (`messageLoop.runAndNotify`)

The Go loop keeps four relevant pieces of mutable state: the cursor
`lastMessageId`, the local variable `session` (re-assigned on a
successful session refresh), the builder field
`ml.b.actionsAdminConnection` (re-assigned by the refresh handshake),
and the shared service client's `ActionsServiceAdminToken` field.  The
local variable `actionsAdminConnection`, captured from the builder once
before the loop starts and never re-assigned, is modelled as the extra
parameter `initialConn` of the step function: line
`actionsServiceClient.ActionsServiceAdminToken =
actionsAdminConnection.AdminToken` reads this stale local, not the
freshly stored builder field. -/

/-- `github.ActionsServiceAdminConnection`: the service URL and admin
bearer token produced by the admin handshake. -/
structure ActionsServiceAdminConnection where
  actionsServiceUrl : String
  adminToken : String
deriving DecidableEq

/-- `github.RunnerScaleSetSession`: the session lease; `scaleSetId`
models `session.RunnerScaleSet.Id`. -/
structure RunnerScaleSetSession where
  sessionId : String
  scaleSetId : Int
  messageQueueUrl : String
  messageQueueAccessToken : String
deriving DecidableEq

/-- `github.RunnerScaleSetMessage`. -/
structure RunnerScaleSetMessage where
  messageId : Int
  messageType : String
  body : String
deriving DecidableEq

/-- Outcome of one `getMessage` poll: a message, the long-poll-empty
`nil` answer, the distinguished `MessageQueueTokenExpiredError`, or any
other error. -/
inductive PollOutcome
  | message (m : RunnerScaleSetMessage)
  | empty
  | tokenExpired
  | failure
deriving DecidableEq

/-- The remote answers one loop iteration can consume: the poll result,
plus (used only on `tokenExpired`) the outcomes of
`GetActionsServiceAdminConnection` and `RefreshMessageSession`. -/
structure IterEnv where
  poll : PollOutcome
  handshake : Option ActionsServiceAdminConnection
  refreshedSession : Option RunnerScaleSetSession
deriving DecidableEq

/-- The loop's mutable state (see the section comment for the mapping to
the Go variables). -/
structure LoopState where
  lastMessageId : Int
  session : RunnerScaleSetSession
  builderAdminConn : Option ActionsServiceAdminConnection
  clientAdminToken : String
deriving DecidableEq

/-- Observable actions of one loop iteration, in program order. -/
inductive LoopEvent
  | polled (cursor : Int)
  | getMessageFailed
  | handshakeAttempted
  | adminTokenSet (token : String)
  | refreshSessionCalled (scaleSetId : Int) (sessionId : String)
  | cursorAdvanced (id : Int)
  | dispatched (id : Int) (messageType : String)
  | unknownMessageLogged (messageType : String)
deriving DecidableEq

/-- The message types with a dedicated handler in the dispatch switch. -/
def knownMessageType (ty : String) : Bool :=
  ty == "RunnerScaleSetJobAvailable" ||
  ty == "RunnerScaleSetJobAssigned" ||
  ty == "RunnerScaleSetJobCompleted"

/-- The dispatch switch: known types reach their handler, anything else
is only logged. -/
def dispatchEventsOf (m : RunnerScaleSetMessage) : List LoopEvent :=
  if knownMessageType m.messageType then
    [LoopEvent.dispatched m.messageId m.messageType]
  else
    [LoopEvent.unknownMessageLogged m.messageType]

/-- One iteration of the `for` body of `messageLoop.runAndNotify`
(cancellation aside): poll, and either log-and-continue, run the
token-refresh sequence, skip an empty answer, or advance the cursor and
dispatch.  Returns the successor state and the iteration's event
trace. -/
def runAndNotifyStep (initialConn : ActionsServiceAdminConnection)
    (env : IterEnv) (st : LoopState) : LoopState × List LoopEvent :=
  match env.poll with
  | PollOutcome.failure =>
    (st, [LoopEvent.polled st.lastMessageId, LoopEvent.getMessageFailed])
  | PollOutcome.tokenExpired =>
    match env.handshake with
    | none =>
      ({ st with builderAdminConn := none },
       [LoopEvent.polled st.lastMessageId, LoopEvent.handshakeAttempted])
    | some conn =>
      let st1 := { st with
        builderAdminConn := some conn
        clientAdminToken := initialConn.adminToken }
      let evs := [LoopEvent.polled st.lastMessageId,
                  LoopEvent.handshakeAttempted,
                  LoopEvent.adminTokenSet initialConn.adminToken,
                  LoopEvent.refreshSessionCalled st.session.scaleSetId
                    st.session.sessionId]
      match env.refreshedSession with
      | none => (st1, evs)
      | some ns => ({ st1 with session := ns }, evs)
  | PollOutcome.empty =>
    (st, [LoopEvent.polled st.lastMessageId])
  | PollOutcome.message m =>
    ({ st with lastMessageId := m.messageId },
     [LoopEvent.polled st.lastMessageId,
      LoopEvent.cursorAdvanced m.messageId] ++ dispatchEventsOf m)

/-- A finite run of the loop: one `IterEnv` per iteration, event traces
concatenated in order. -/
def runAndNotifyRun (initialConn : ActionsServiceAdminConnection) :
    List IterEnv → LoopState → LoopState × List LoopEvent
  | [], st => (st, [])
  | e :: es, st =>
    ((runAndNotifyRun initialConn es (runAndNotifyStep initialConn e st).1).1,
     (runAndNotifyStep initialConn e st).2 ++
       (runAndNotifyRun initialConn es (runAndNotifyStep initialConn e st).1).2)

/-- The ids of the messages a trace dispatched to a handler. -/
def dispatchedIds (evs : List LoopEvent) : List Int :=
  evs.filterMap fun e =>
    match e with
    | LoopEvent.dispatched id _ => some id
    | _ => none

/-- Did an iteration touch the session-refresh machinery at all? -/
def refreshTouched (evs : List LoopEvent) : Bool :=
  evs.any fun e =>
    match e with
    | LoopEvent.handshakeAttempted => true
    | LoopEvent.adminTokenSet _ => true
    | LoopEvent.refreshSessionCalled _ _ => true
    | _ => false

/-- The queue contract assumed for ordering: every message a poll
delivers carries an id strictly greater than the cursor supplied to that
poll (checked along the run). -/
def saneEnvs (initialConn : ActionsServiceAdminConnection) :
    List IterEnv → LoopState → Bool
  | [], _ => true
  | e :: es, st =>
    (match e.poll with
     | PollOutcome.message m => decide (st.lastMessageId < m.messageId)
     | _ => true) &&
    saneEnvs initialConn es (runAndNotifyStep initialConn e st).1

/-! ## Session bootstrap (`createRunnerScaleSetSession`) -/

/-- Result of the session-creation retry loop: the session if one was
obtained, how many `CreateMessageSession` attempts actually ran, the
attempt count reported in the final error message (`Unable to create
session in %d attempts`, `none` on success), and the sleeps performed
(seconds, in order). -/
structure SessionCreationOutcome where
  session : Option RunnerScaleSetSession
  attemptsMade : Nat
  errorReportedAttempts : Option Nat
  sleepsSeconds : List Nat
deriving DecidableEq

/-- The `for i := 0; i < retries; i++` loop of
`createRunnerScaleSetSession`, with `results` the oracle for the `i`-th
`CreateMessageSession` call.  Faithful to the source: on each failed
attempt the loop decrements `retries` (`retries--`) *and* `i` advances,
and sleeps 30 seconds; the guard `i < retries` is re-checked against the
decremented bound. -/
def createSessionLoop (results : Nat → Option RunnerScaleSetSession) :
    Nat → Nat → SessionCreationOutcome
  | i, 0 =>
    { session := none, attemptsMade := i
      errorReportedAttempts := some 0, sleepsSeconds := [] }
  | i, r + 1 =>
    if i < r + 1 then
      match results i with
      | some s =>
        { session := some s, attemptsMade := i + 1
          errorReportedAttempts := none, sleepsSeconds := [] }
      | none =>
        let rest := createSessionLoop results (i + 1) r
        { rest with sleepsSeconds := 30 :: rest.sleepsSeconds }
    else
      { session := none, attemptsMade := i
        errorReportedAttempts := some (r + 1), sleepsSeconds := [] }

/-- `createRunnerScaleSetSession`: starts the loop with `i = 0` and
`retries := 3`. -/
def createRunnerScaleSetSession
    (results : Nat → Option RunnerScaleSetSession) : SessionCreationOutcome :=
  createSessionLoop results 0 3

/-! ## `RunnerReplicaSetReconciler.Reconcile` -/

/-- Classification of a failed `IsRunnerBusy` probe as performed by the
reconciler's `errors.As` chain: `github.RunnerNotFound`,
`github.RunnerOffline`, `gogithub.RateLimitError`, or anything else. -/
inductive ProbeErr
  | notFound
  | offline
  | rateLimit
  | other
deriving DecidableEq

/-- A `v1alpha1.Runner` resource as the reconciler sees it:
`controlledBy` models `metav1.IsControlledBy(&r, &rs)` for the replica
set under reconciliation, `phase` is `r.Status.Phase`, and the creation
timestamp is in seconds. -/
structure Runner where
  name : String
  creationTimestamp : Int
  phase : String
  controlledBy : Bool
deriving DecidableEq

/-- The fields of `v1alpha1.RunnerReplicaSet` the reconciler reads:
`Spec.Replicas` (a nullable pointer), whether
`ObjectMeta.DeletionTimestamp.IsZero()` holds, and the two status
counters. -/
structure RunnerReplicaSet where
  replicas : Option Int
  deletionTimestampIsZero : Bool
  statusAvailableReplicas : Int
  statusReadyReplicas : Int
deriving DecidableEq

/-- Everything one reconciliation pass consumes: the replica set, the
namespace's runner list (`r.List`), the busy probe
(`GitHubClient.IsRunnerBusy` as the reconciler observes it: the Go
`(bool, error)` pair, with the error classified), the current time, and
the package constant `retryDelayOnGitHubAPIRateLimitError` (defined
outside this file's sources, hence kept abstract as an input). -/
structure ReconcileInput where
  rs : RunnerReplicaSet
  allRunners : List Runner
  probe : Runner → Bool × Option ProbeErr
  now : Int
  retryDelay : Int

/-- `registrationTimeout := 15 * time.Minute` from the scale-down loop
(seconds here). -/
def registrationTimeout : Int := 15 * 60

/-- The desired replica count: `*rs.Spec.Replicas` when the pointer is
set, `1` otherwise. -/
def desiredCount : Option Int → Int
  | some n => n
  | none => 1

/-- The runners controlled by the replica set under reconciliation
(`myRunners` in the source). -/
def myRunners (inp : ReconcileInput) : List Runner :=
  inp.allRunners.filter (fun r => r.controlledBy)

/-- `available`: the count of controlled runners, regardless of phase. -/
def availableCount (inp : ReconcileInput) : Int :=
  ((myRunners inp).length : Int)

/-- `ready`: the count of controlled runners whose phase is `Running`. -/
def readyCount (inp : ReconcileInput) : Int :=
  (((myRunners inp).filter (fun r => r.phase == "Running")).length : Int)

/-- The scale-down candidate scan (the `for _, runner := range myRunners`
loop building `notBusy`): a probe with no error adds the runner when not
busy; a `RunnerNotFound` error adds it only when
`currentTime.Sub(runner.CreationTimestamp.Add(registrationTimeout)) > 0`;
a `RunnerOffline` error always adds it (its busy flag is ignored); a
rate-limit or unclassified error aborts the whole scan immediately. -/
def collectNotBusy (probe : Runner → Bool × Option ProbeErr) (now : Int) :
    List Runner → Except ProbeErr (List Runner)
  | [] => Except.ok []
  | r :: rest =>
    match probe r with
    | (busy, none) =>
      match collectNotBusy probe now rest with
      | Except.ok l => Except.ok (if busy then l else r :: l)
      | Except.error e => Except.error e
    | (_, some ProbeErr.notFound) =>
      match collectNotBusy probe now rest with
      | Except.ok l =>
        Except.ok
          (if now - (r.creationTimestamp + registrationTimeout) > 0 then
            r :: l
          else l)
      | Except.error e => Except.error e
    | (_, some ProbeErr.offline) =>
      match collectNotBusy probe now rest with
      | Except.ok l => Except.ok (r :: l)
      | Except.error e => Except.error e
    | (_, some ProbeErr.rateLimit) => Except.error ProbeErr.rateLimit
    | (_, some ProbeErr.other) => Except.error ProbeErr.other

/-- What one reconciliation pass did: the runner resources passed to
`Client.Delete`, how many new runners were created, the
`ctrl.Result.RequeueAfter` value, the error returned to
controller-runtime (classified), and the status write (new available and
ready counts) when one was issued. -/
structure ReconcileResult where
  deleted : List Runner
  created : Nat
  requeueAfter : Option Int
  err : Option ProbeErr
  statusUpdate : Option (Int × Int)
deriving DecidableEq

/-- `RunnerReplicaSetReconciler.Reconcile`, with deletions and creations
assumed to succeed (their error paths only propagate Fleet Client
failures).  A replica set being deleted is left alone; on scale-down the
candidate scan either aborts the pass (rate-limit: requeue after the
fixed delay *and* return the error; otherwise: plain error) or yields
`notBusy`, of which the first `min(available - desired, len notBusy)`
runners are deleted; on scale-up `desired - available` runners are
created; finally the status counters are written only when they
changed. -/
def Reconcile (inp : ReconcileInput) : ReconcileResult :=
  if inp.rs.deletionTimestampIsZero = true then
    let available := availableCount inp
    let ready := readyCount inp
    let desired := desiredCount inp.rs.replicas
    let statusUpd :=
      if inp.rs.statusAvailableReplicas ≠ available ∨
          inp.rs.statusReadyReplicas ≠ ready then
        some (available, ready)
      else none
    if desired < available then
      match collectNotBusy inp.probe inp.now (myRunners inp) with
      | Except.error ProbeErr.rateLimit =>
        { deleted := [], created := 0
          requeueAfter := some inp.retryDelay
          err := some ProbeErr.rateLimit, statusUpdate := none }
      | Except.error e =>
        { deleted := [], created := 0, requeueAfter := none
          err := some e, statusUpdate := none }
      | Except.ok notBusy =>
        let n : Int := min (available - desired) ((notBusy.length : Int))
        { deleted := notBusy.take n.toNat, created := 0
          requeueAfter := none, err := none, statusUpdate := statusUpd }
    else if available < desired then
      { deleted := [], created := (desired - available).toNat
        requeueAfter := none, err := none, statusUpdate := statusUpd }
    else
      { deleted := [], created := 0, requeueAfter := none, err := none
        statusUpdate := statusUpd }
  else
    { deleted := [], created := 0, requeueAfter := none, err := none
      statusUpdate := none }

/-- The boolean form of the scan's per-runner decision: exactly the
runners `collectNotBusy` keeps when no probe aborts the pass. -/
def scaleDownCandidateB (probe : Runner → Bool × Option ProbeErr)
    (now : Int) (r : Runner) : Bool :=
  match probe r with
  | (busy, none) => !busy
  | (_, some ProbeErr.notFound) =>
    decide (now - (r.creationTimestamp + registrationTimeout) > 0)
  | (_, some ProbeErr.offline) => true
  | (_, some ProbeErr.rateLimit) => false
  | (_, some ProbeErr.other) => false

/-- The scale-down candidate list of a pass, in scan order. -/
def scaleDownCandidates (inp : ReconcileInput) : List Runner :=
  (myRunners inp).filter (scaleDownCandidateB inp.probe inp.now)

/-- The not-busy candidate set as the specification words it: a probe
confirming not-busy, an offline classification, or a not-registered
classification on a runner older than the registration timeout. -/
def isScaleDownCandidate (inp : ReconcileInput) (r : Runner) : Prop :=
  inp.probe r = (false, none) ∨
  (inp.probe r).2 = some ProbeErr.offline ∨
  ((inp.probe r).2 = some ProbeErr.notFound ∧
    registrationTimeout < inp.now - r.creationTimestamp)

/-! ## Concrete scenarios used by witnesses and counterexamples -/

/-- A controlled runner in `Running` phase. -/
def exRunner (nm : String) (created : Int) : Runner :=
  { name := nm, creationTimestamp := created, phase := "Running"
    controlledBy := true }

/-- Probe of the specification's safe-scale-down scenario: runners 1 and
2 busy, runner 3 offline, runners 4 and 5 idle. -/
def exProbeSafe (r : Runner) : Bool × Option ProbeErr :=
  if r.name == "runner-1" || r.name == "runner-2" then (true, none)
  else if r.name == "runner-3" then (false, some ProbeErr.offline)
  else (false, none)

/-- Five live runners with desired count 3 (the spec's safe-scale-down
scenario). -/
def exInputSafe : ReconcileInput :=
  { rs := { replicas := some 3, deletionTimestampIsZero := true
            statusAvailableReplicas := 5, statusReadyReplicas := 5 }
    allRunners := [exRunner "runner-1" 0, exRunner "runner-2" 0,
                   exRunner "runner-3" 0, exRunner "runner-4" 0,
                   exRunner "runner-5" 0]
    probe := exProbeSafe
    now := 10000, retryDelay := 30 }

/-- Probe hitting the GitHub rate limit on runner 3. -/
def exProbeRateLimit (r : Runner) : Bool × Option ProbeErr :=
  if r.name == "runner-3" then (false, some ProbeErr.rateLimit)
  else (false, none)

/-- Scale-down pass in which the probe of runner 3 of 5 rate-limits. -/
def exInputRateLimit : ReconcileInput :=
  { rs := { replicas := some 3, deletionTimestampIsZero := true
            statusAvailableReplicas := 5, statusReadyReplicas := 5 }
    allRunners := [exRunner "runner-1" 0, exRunner "runner-2" 0,
                   exRunner "runner-3" 0, exRunner "runner-4" 0,
                   exRunner "runner-5" 0]
    probe := exProbeRateLimit
    now := 10000, retryDelay := 30 }

/-- Probe classifying every runner as never-registered. -/
def exProbeNotFound (_ : Runner) : Bool × Option ProbeErr :=
  (false, some ProbeErr.notFound)

/-- A young (age 500 s) and an old (age 10000 s) unregistered runner,
scale-down to zero. -/
def exInputGrace : ReconcileInput :=
  { rs := { replicas := some 0, deletionTimestampIsZero := true
            statusAvailableReplicas := 2, statusReadyReplicas := 2 }
    allRunners := [exRunner "young" 9500, exRunner "old" 0]
    probe := exProbeNotFound
    now := 10000, retryDelay := 30 }

/-- The admin connection captured into the loop's local variable before
the first iteration. -/
def exConn0 : ActionsServiceAdminConnection :=
  { actionsServiceUrl := "https://pipelines.example"
    adminToken := "token-old" }

/-- The fresh admin connection returned by the refresh handshake. -/
def exConn1 : ActionsServiceAdminConnection :=
  { actionsServiceUrl := "https://pipelines.example"
    adminToken := "token-new" }

/-- The session held before the refresh. -/
def exSession0 : RunnerScaleSetSession :=
  { sessionId := "sess-0", scaleSetId := 7
    messageQueueUrl := "https://queue.example"
    messageQueueAccessToken := "qtok-0" }

/-- The re-issued session lease (same ids, new queue token). -/
def exSession1 : RunnerScaleSetSession :=
  { sessionId := "sess-0", scaleSetId := 7
    messageQueueUrl := "https://queue.example"
    messageQueueAccessToken := "qtok-1" }

/-- Loop state mid-run: cursor 42, original connection and token. -/
def exLoopState : LoopState :=
  { lastMessageId := 42, session := exSession0
    builderAdminConn := some exConn0, clientAdminToken := "token-old" }

/-- A token-expired poll whose handshake and session refresh succeed. -/
def exEnvRefresh : IterEnv :=
  { poll := PollOutcome.tokenExpired, handshake := some exConn1
    refreshedSession := some exSession1 }

/-- A poll failing with an undistinguished error. -/
def exEnvFailure : IterEnv :=
  { poll := PollOutcome.failure, handshake := none
    refreshedSession := none }

/-- A message as delivered by the queue. -/
def exMsg (id : Int) (ty : String) : RunnerScaleSetMessage :=
  { messageId := id, messageType := ty, body := "" }

/-- A three-iteration run: a job-assigned message, a token refresh, then
a job-completed message. -/
def exEnvsRun : List IterEnv :=
  [ { poll := PollOutcome.message (exMsg 5 "RunnerScaleSetJobAssigned")
      handshake := none, refreshedSession := none }
  , exEnvRefresh
  , { poll := PollOutcome.message (exMsg 9 "RunnerScaleSetJobCompleted")
      handshake := none, refreshedSession := none } ]

/-- The loop's start state: cursor 0. -/
def exLoopStart : LoopState :=
  { lastMessageId := 0, session := exSession0
    builderAdminConn := some exConn0, clientAdminToken := "token-old" }

/-- A cached registration token that expired in the past. -/
def exStaleToken : RegistrationToken := { token := "stale", expiresAt := 500 }

/-- The fresh registration token minted by the API. -/
def exFreshToken : RegistrationToken :=
  { token := "fresh", expiresAt := 999999 }

/-- A cached registration token valid far into the future. -/
def exLiveToken : RegistrationToken := { token := "live", expiresAt := 999999 }

/-- The cache key of an organization-scoped request. -/
def exRegKey : String := getRegistrationKey "myorg" "" ""

/-- A cache holding only the stale token. -/
def exRegCacheStale : RegTokenCache := [(exRegKey, exStaleToken)]

/-- A cache holding a still-valid token. -/
def exRegCacheLive : RegTokenCache := [(exRegKey, exLiveToken)]

/-! ## Lemmas about the scale-down candidate scan -/

/-- When the scan completes, the list it returns is exactly the filter of
the scanned runners by the per-runner decision. -/
theorem collectNotBusy_ok_eq_filter
    (probe : Runner → Bool × Option ProbeErr) (now : Int) :
    ∀ (rs : List Runner) (l : List Runner),
      collectNotBusy probe now rs = Except.ok l →
      l = rs.filter (scaleDownCandidateB probe now) := by
  intro rs
  induction rs with
  | nil =>
    intro l h
    simp only [collectNotBusy] at h
    cases h
    simp
  | cons r rest ih =>
    intro l h
    rcases hp : probe r with ⟨busy, e?⟩
    rcases e? with _ | e
    · simp only [collectNotBusy, hp] at h
      rcases hrec : collectNotBusy probe now rest with e' | l'
      · rw [hrec] at h; cases h
      · rw [hrec] at h
        cases h
        have hl' := ih l' hrec
        subst hl'
        simp [List.filter_cons, scaleDownCandidateB, hp]
        cases busy <;> simp
    · cases e
      · simp only [collectNotBusy, hp] at h
        rcases hrec : collectNotBusy probe now rest with e' | l'
        · rw [hrec] at h; cases h
        · rw [hrec] at h
          cases h
          have hl' := ih l' hrec
          subst hl'
          simp only [List.filter_cons, scaleDownCandidateB, hp]
          by_cases ht : now - (r.creationTimestamp + registrationTimeout) > 0
          · simp [ht]
          · simp [ht]
      · simp only [collectNotBusy, hp] at h
        rcases hrec : collectNotBusy probe now rest with e' | l'
        · rw [hrec] at h; cases h
        · rw [hrec] at h
          cases h
          have hl' := ih l' hrec
          subst hl'
          simp [List.filter_cons, scaleDownCandidateB, hp]
      · simp only [collectNotBusy, hp] at h; cases h
      · simp only [collectNotBusy, hp] at h; cases h

/-- When no probe classifies as rate-limit or unrecognized, the scan
completes and returns the filtered list. -/
theorem collectNotBusy_of_no_abort
    (probe : Runner → Bool × Option ProbeErr) (now : Int) :
    ∀ (rs : List Runner),
      (∀ r ∈ rs, (probe r).2 ≠ some ProbeErr.rateLimit ∧
        (probe r).2 ≠ some ProbeErr.other) →
      collectNotBusy probe now rs =
        Except.ok (rs.filter (scaleDownCandidateB probe now)) := by
  intro rs
  induction rs with
  | nil => intro _; simp [collectNotBusy]
  | cons r rest ih =>
    intro hq
    have hr := hq r (List.mem_cons_self r rest)
    have hrest := ih (fun r' hr' => hq r' (List.mem_cons_of_mem r hr'))
    rcases hp : probe r with ⟨busy, e?⟩
    rcases e? with _ | e
    · simp only [collectNotBusy, hp, hrest]
      simp [List.filter_cons, scaleDownCandidateB, hp]
      cases busy <;> simp
    · cases e
      · simp only [collectNotBusy, hp, hrest]
        simp only [List.filter_cons, scaleDownCandidateB, hp]
        by_cases ht : now - (r.creationTimestamp + registrationTimeout) > 0
        · simp [ht]
        · simp [ht]
      · simp only [collectNotBusy, hp, hrest]
        simp [List.filter_cons, scaleDownCandidateB, hp]
      · rw [hp] at hr; simp at hr
      · rw [hp] at hr; simp at hr

/-- If some scanned runner's probe classifies as rate-limit and none
classifies as unrecognized, the scan aborts with the rate-limit error. -/
theorem collectNotBusy_rateLimit
    (probe : Runner → Bool × Option ProbeErr) (now : Int) :
    ∀ (rs : List Runner),
      (∃ r ∈ rs, (probe r).2 = some ProbeErr.rateLimit) →
      (∀ r ∈ rs, (probe r).2 ≠ some ProbeErr.other) →
      collectNotBusy probe now rs = Except.error ProbeErr.rateLimit := by
  intro rs
  induction rs with
  | nil => rintro ⟨r, hr, _⟩ _; cases hr
  | cons r rest ih =>
    rintro ⟨w, hw, hwrl⟩ hno
    rcases hp : probe r with ⟨busy, e?⟩
    rcases e? with _ | e
    · have hwrest : w ∈ rest := by
        rcases List.mem_cons.mp hw with h | h
        · subst h; rw [hp] at hwrl; simp at hwrl
        · exact h
      have hrec := ih ⟨w, hwrest, hwrl⟩
        (fun r' hr' => hno r' (List.mem_cons_of_mem r hr'))
      simp [collectNotBusy, hp, hrec]
    · cases e
      · have hwrest : w ∈ rest := by
          rcases List.mem_cons.mp hw with h | h
          · subst h; rw [hp] at hwrl; simp at hwrl
          · exact h
        have hrec := ih ⟨w, hwrest, hwrl⟩
          (fun r' hr' => hno r' (List.mem_cons_of_mem r hr'))
        simp [collectNotBusy, hp, hrec]
      · have hwrest : w ∈ rest := by
          rcases List.mem_cons.mp hw with h | h
          · subst h; rw [hp] at hwrl; simp at hwrl
          · exact h
        have hrec := ih ⟨w, hwrest, hwrl⟩
          (fun r' hr' => hno r' (List.mem_cons_of_mem r hr'))
        simp [collectNotBusy, hp, hrec]
      · simp [collectNotBusy, hp]
      · exact absurd (by rw [hp]) (hno r (List.mem_cons_self r rest))

/-- The per-runner boolean decision agrees with the specification-level
candidate predicate. -/
theorem scaleDownCandidateB_iff (inp : ReconcileInput) (r : Runner) :
    scaleDownCandidateB inp.probe inp.now r = true ↔
      isScaleDownCandidate inp r := by
  rcases hp : inp.probe r with ⟨busy, e?⟩
  rcases e? with _ | e
  · cases busy <;>
      simp [scaleDownCandidateB, isScaleDownCandidate, hp]
  · cases e
    · simp [scaleDownCandidateB, isScaleDownCandidate, hp]
      omega
    · simp [scaleDownCandidateB, isScaleDownCandidate, hp]
    · simp [scaleDownCandidateB, isScaleDownCandidate, hp]
    · simp [scaleDownCandidateB, isScaleDownCandidate, hp]

/-- Whatever the inputs, a pass deletes either nothing or an initial
segment of the candidate list. -/
theorem Reconcile_deleted_shape (inp : ReconcileInput) :
    (Reconcile inp).deleted = [] ∨
      ∃ n, (Reconcile inp).deleted = (scaleDownCandidates inp).take n := by
  unfold Reconcile
  by_cases hdel : inp.rs.deletionTimestampIsZero = true
  · simp only [hdel, if_pos]
    by_cases hlt : desiredCount inp.rs.replicas < availableCount inp
    · simp only [hlt, if_pos]
      rcases hcb : collectNotBusy inp.probe inp.now (myRunners inp) with e | l
      · cases e <;> simp
      · have hl := collectNotBusy_ok_eq_filter inp.probe inp.now _ _ hcb
        right
        refine ⟨(min (availableCount inp - desiredCount inp.rs.replicas)
          ((l.length : Int))).toNat, ?_⟩
        simp only [hl, scaleDownCandidates]
    · simp only [hlt, if_neg, if_false]
      by_cases hgt : availableCount inp < desiredCount inp.rs.replicas <;>
        simp [hgt]
  · simp [hdel]

/-! ## Lemmas about the message loop -/

/-- The cursor after one iteration: the delivered message's id, or
unchanged when nothing was delivered. -/
theorem runAndNotifyStep_lastMessageId
    (c : ActionsServiceAdminConnection) (env : IterEnv) (st : LoopState) :
    (runAndNotifyStep c env st).1.lastMessageId =
      match env.poll with
      | PollOutcome.message m => m.messageId
      | _ => st.lastMessageId := by
  rcases env with ⟨poll, hs, rf⟩
  cases poll <;> cases hs <;> cases rf <;> simp [runAndNotifyStep]

/-- An iteration dispatches only what its poll delivered. -/
theorem runAndNotifyStep_dispatchedIds
    (c : ActionsServiceAdminConnection) (env : IterEnv) (st : LoopState) :
    dispatchedIds (runAndNotifyStep c env st).2 =
      match env.poll with
      | PollOutcome.message m => dispatchedIds (dispatchEventsOf m)
      | _ => [] := by
  rcases env with ⟨poll, hs, rf⟩
  cases poll <;> cases hs <;> cases rf <;>
    simp [runAndNotifyStep, dispatchedIds]

/-- Strengthening the head of a strictly increasing chain. -/
theorem chain_lt_cons_of_lt {a b : Int} {l : List Int}
    (h : List.Chain' (fun x y => x < y) (a :: l)) (hba : b < a) :
    List.Chain' (fun x y => x < y) (b :: l) := by
  cases l with
  | nil => simp
  | cons x xs =>
    rw [List.chain'_cons] at h ⊢
    exact ⟨hba.trans h.1, h.2⟩

/-- Along any run whose polls respect the queue contract, the cursor at
the start of the run is a strict lower bound for the dispatched ids and
those ids are strictly increasing. -/
theorem runAndNotifyRun_chain (c : ActionsServiceAdminConnection) :
    ∀ (envs : List IterEnv) (st : LoopState),
      saneEnvs c envs st = true →
      List.Chain' (fun x y => x < y)
        (st.lastMessageId :: dispatchedIds (runAndNotifyRun c envs st).2) := by
  intro envs
  induction envs with
  | nil => intro st _; simp [runAndNotifyRun, dispatchedIds]
  | cons e es ih =>
    intro st hs
    have hsane := hs
    simp only [saneEnvs, Bool.and_eq_true] at hsane
    obtain ⟨h1, h2⟩ := hsane
    have ihs := ih _ h2
    have hids : dispatchedIds (runAndNotifyRun c (e :: es) st).2 =
        dispatchedIds (runAndNotifyStep c e st).2 ++
          dispatchedIds
            (runAndNotifyRun c es (runAndNotifyStep c e st).1).2 := by
      simp [runAndNotifyRun, dispatchedIds, List.filterMap_append]
    rw [hids, runAndNotifyStep_dispatchedIds]
    rcases hp : e.poll with m | _ | _ | _
    · rw [hp] at h1
      have hlt : st.lastMessageId < m.messageId := by
        simpa using h1
      have hcur : (runAndNotifyStep c e st).1.lastMessageId = m.messageId := by
        rw [runAndNotifyStep_lastMessageId, hp]
      rw [hcur] at ihs
      by_cases hk : knownMessageType m.messageType = true
      · have hd : dispatchedIds (dispatchEventsOf m) = [m.messageId] := by
          simp [dispatchEventsOf, hk, dispatchedIds]
        dsimp only
        rw [hd]
        simp only [List.cons_append, List.nil_append]
        rw [List.chain'_cons]
        exact ⟨hlt, ihs⟩
      · have hd : dispatchedIds (dispatchEventsOf m) = [] := by
          simp only [Bool.not_eq_true] at hk
          simp [dispatchEventsOf, hk, dispatchedIds]
        dsimp only
        rw [hd, List.nil_append]
        exact chain_lt_cons_of_lt ihs hlt
    · have hcur : (runAndNotifyStep c e st).1.lastMessageId =
          st.lastMessageId := by
        rw [runAndNotifyStep_lastMessageId, hp]
      rw [hcur] at ihs
      simpa using ihs
    · have hcur : (runAndNotifyStep c e st).1.lastMessageId =
          st.lastMessageId := by
        rw [runAndNotifyStep_lastMessageId, hp]
      rw [hcur] at ihs
      simpa using ihs
    · have hcur : (runAndNotifyStep c e st).1.lastMessageId =
          st.lastMessageId := by
        rw [runAndNotifyStep_lastMessageId, hp]
      rw [hcur] at ihs
      simpa using ihs

/-- Reduction of `Reconcile` on a scale-down pass whose candidate scan
completed. -/
theorem Reconcile_scaledown_ok (inp : ReconcileInput)
    (hdel : inp.rs.deletionTimestampIsZero = true)
    (hscale : desiredCount inp.rs.replicas < availableCount inp)
    (l : List Runner)
    (hcb : collectNotBusy inp.probe inp.now (myRunners inp) = Except.ok l) :
    Reconcile inp =
      { deleted := l.take
          ((min (availableCount inp - desiredCount inp.rs.replicas)
            ((l.length : Int))).toNat)
        created := 0, requeueAfter := none, err := none
        statusUpdate :=
          if inp.rs.statusAvailableReplicas ≠ availableCount inp ∨
              inp.rs.statusReadyReplicas ≠ readyCount inp then
            some (availableCount inp, readyCount inp)
          else none } := by
  unfold Reconcile
  rw [if_pos hdel]
  dsimp only
  rw [if_pos hscale, hcb]

/-- Reduction of `Reconcile` on a scale-down pass whose candidate scan
hit a rate-limit classified probe error. -/
theorem Reconcile_scaledown_rateLimit (inp : ReconcileInput)
    (hdel : inp.rs.deletionTimestampIsZero = true)
    (hscale : desiredCount inp.rs.replicas < availableCount inp)
    (hcb : collectNotBusy inp.probe inp.now (myRunners inp) =
      Except.error ProbeErr.rateLimit) :
    Reconcile inp =
      { deleted := [], created := 0
        requeueAfter := some inp.retryDelay
        err := some ProbeErr.rateLimit, statusUpdate := none } := by
  unfold Reconcile
  rw [if_pos hdel]
  dsimp only
  rw [if_pos hscale, hcb]

/-- Claim C1: in every reconciliation pass with `available > desired`
(and whose probes let the scan complete), the deleted runners all belong
to the not-busy candidate set — a not-busy probe answer, an offline
classification, or a not-registered classification past the registration
timeout; a runner whose probe reports `busy = true` is never deleted;
and when the candidate set is smaller than the excess, exactly the
candidates are deleted and no more. -/
theorem claimC1_safe_scale_down (inp : ReconcileInput)
    (hdel : inp.rs.deletionTimestampIsZero = true)
    (hscale : desiredCount inp.rs.replicas < availableCount inp)
    (hq : ∀ r ∈ myRunners inp,
      (inp.probe r).2 ≠ some ProbeErr.rateLimit ∧
      (inp.probe r).2 ≠ some ProbeErr.other) :
    (∀ r ∈ (Reconcile inp).deleted,
        r ∈ myRunners inp ∧ isScaleDownCandidate inp r) ∧
    (∀ r, inp.probe r = (true, none) → r ∉ (Reconcile inp).deleted) ∧
    (((scaleDownCandidates inp).length : Int) <
        availableCount inp - desiredCount inp.rs.replicas →
      (Reconcile inp).deleted = scaleDownCandidates inp) := by
  have hcb := collectNotBusy_of_no_abort inp.probe inp.now (myRunners inp) hq
  have hred := Reconcile_scaledown_ok inp hdel hscale _ hcb
  have hdeleted : (Reconcile inp).deleted =
      (scaleDownCandidates inp).take
        ((min (availableCount inp - desiredCount inp.rs.replicas)
          (((scaleDownCandidates inp).length : Int))).toNat) := by
    rw [hred]
    rfl
  refine ⟨?_, ?_, ?_⟩
  · intro r hr
    rw [hdeleted] at hr
    have hmem : r ∈ scaleDownCandidates inp := List.take_subset _ _ hr
    unfold scaleDownCandidates at hmem
    have hm := List.mem_filter.mp hmem
    exact ⟨hm.1, (scaleDownCandidateB_iff inp r).mp hm.2⟩
  · intro r hbusy hr
    rw [hdeleted] at hr
    have hmem : r ∈ scaleDownCandidates inp := List.take_subset _ _ hr
    unfold scaleDownCandidates at hmem
    have hcand := (scaleDownCandidateB_iff inp r).mp
      (List.mem_filter.mp hmem).2
    rcases hcand with h | h | h
    · rw [hbusy] at h; simp at h
    · rw [hbusy] at h; simp at h
    · rcases h with ⟨h1, h2⟩
      rw [hbusy] at h1; simp at h1
  · intro hlen
    rw [hdeleted, min_eq_right (le_of_lt hlen)]
    simp

/-- Witness for claim C1: the spec scenario — 5 pods, 2 busy, 1 offline,
2 idle, desired 3 — deletes the offline pod and the first idle pod and
touches no busy pod. -/
theorem claimC1_safe_scale_down_witness :
    (∀ r ∈ (Reconcile exInputSafe).deleted,
        r ∈ myRunners exInputSafe ∧ isScaleDownCandidate exInputSafe r) ∧
    (∀ r, exInputSafe.probe r = (true, none) →
        r ∉ (Reconcile exInputSafe).deleted) ∧
    (Reconcile exInputSafe).deleted =
      [exRunner "runner-3" 0, exRunner "runner-4" 0] :=
  have h := claimC1_safe_scale_down exInputSafe (by decide) (by decide)
    (by decide)
  ⟨h.1, h.2.1, by decide⟩

/-- Claim C3, as stated, is false on the code: a rate-limit classified
probe error does abort the pass with zero deletions and a requeue after
the fixed backoff, but the pass also returns the error to the caller —
`return ctrl.Result{RequeueAfter: ...}, err` — rather than raising no
hard failure. -/
theorem claimC3_counterexample :
    Reconcile exInputRateLimit =
      { deleted := [], created := 0, requeueAfter := some 30
        err := some ProbeErr.rateLimit, statusUpdate := none } ∧
    (Reconcile exInputRateLimit).err ≠ none := by
  refine ⟨by decide, by decide⟩

/-- Claim C3 (amended): if any probed runner classifies as rate-limited
(and none as an unrecognized error), the scale-down pass is aborted with
zero deletions and zero creations, a single retry is scheduled after the
fixed backoff window, and the rate-limit error is returned to the caller
alongside the requeue request. -/
theorem claimC3_rate_limit_aborts_pass (inp : ReconcileInput)
    (hdel : inp.rs.deletionTimestampIsZero = true)
    (hscale : desiredCount inp.rs.replicas < availableCount inp)
    (hrl : ∃ r ∈ myRunners inp, (inp.probe r).2 = some ProbeErr.rateLimit)
    (hno : ∀ r ∈ myRunners inp, (inp.probe r).2 ≠ some ProbeErr.other) :
    Reconcile inp =
      { deleted := [], created := 0
        requeueAfter := some inp.retryDelay
        err := some ProbeErr.rateLimit, statusUpdate := none } :=
  Reconcile_scaledown_rateLimit inp hdel hscale
    (collectNotBusy_rateLimit inp.probe inp.now (myRunners inp) hrl hno)

/-- Witness for claim C3 (amended): the spec scenario — a rate-limit on
probe 3 of 5 — performs no deletion and requeues after the backoff. -/
theorem claimC3_rate_limit_aborts_pass_witness :
    Reconcile exInputRateLimit =
      { deleted := [], created := 0, requeueAfter := some 30
        err := some ProbeErr.rateLimit, statusUpdate := none } :=
  claimC3_rate_limit_aborts_pass exInputRateLimit (by decide) (by decide)
    ⟨exRunner "runner-3" 0, by decide, by decide⟩ (by decide)

/-- Claim C4: a runner whose probe classifies as not-registered is a
scale-down candidate exactly when its age exceeds the 15-minute
registration timeout, and a younger such runner is never deleted. -/
theorem claimC4_registration_grace (inp : ReconcileInput) (r : Runner)
    (hr : r ∈ myRunners inp)
    (hnf : (inp.probe r).2 = some ProbeErr.notFound) :
    (r ∈ scaleDownCandidates inp ↔
      registrationTimeout < inp.now - r.creationTimestamp) ∧
    (inp.now - r.creationTimestamp ≤ registrationTimeout →
      r ∉ (Reconcile inp).deleted) := by
  have hBiff : scaleDownCandidateB inp.probe inp.now r = true ↔
      registrationTimeout < inp.now - r.creationTimestamp := by
    rcases hp : inp.probe r with ⟨b, e?⟩
    rw [hp] at hnf
    simp only at hnf
    subst hnf
    simp only [scaleDownCandidateB, hp, decide_eq_true_eq]
    omega
  constructor
  · unfold scaleDownCandidates
    rw [List.mem_filter]
    constructor
    · rintro ⟨_, hb⟩
      exact hBiff.mp hb
    · intro ht
      exact ⟨hr, hBiff.mpr ht⟩
  · intro hyoung hmem
    rcases Reconcile_deleted_shape inp with hsh | ⟨n, hsh⟩
    · rw [hsh] at hmem
      cases hmem
    · rw [hsh] at hmem
      have hc : r ∈ scaleDownCandidates inp := List.take_subset _ _ hmem
      unfold scaleDownCandidates at hc
      have hb := (List.mem_filter.mp hc).2
      rw [hBiff] at hb
      omega

/-- Witness for claim C4: with the 15-minute timeout, the 500-second-old
unregistered runner is not deleted while the 10000-second-old one is a
candidate. -/
theorem claimC4_registration_grace_witness :
    (exRunner "old" 0 ∈ scaleDownCandidates exInputGrace) ∧
    (exRunner "young" 9500 ∉ (Reconcile exInputGrace).deleted) :=
  ⟨(claimC4_registration_grace exInputGrace (exRunner "old" 0) (by decide)
      (by decide)).1.mpr (by decide),
   (claimC4_registration_grace exInputGrace (exRunner "young" 9500)
      (by decide) (by decide)).2 (by decide)⟩

/-- Claim C10: a replica set whose `Spec.Replicas` pointer is unset is
reconciled with a desired count of exactly 1 — the pass behaves
identically to one with an explicit count of 1. -/
theorem claimC10_nil_replicas_defaults_to_one :
    desiredCount none = 1 ∧
    ∀ (inp : ReconcileInput),
      Reconcile { inp with rs := { inp.rs with replicas := none } } =
        Reconcile { inp with rs := { inp.rs with replicas := some 1 } } :=
  ⟨rfl, fun _ => rfl⟩

/-- Claim C2 states the intended refresh behavior, but the code has a
slip: evaluated at a token-expired poll whose handshake returns a new
token, the iteration does re-run the handshake, stores the fresh
connection in the builder, re-issues the session lease for the existing
scale-set and session ids, and leaves the cursor unchanged — yet the
service client's admin bearer token is assigned from the stale local
`actionsAdminConnection` captured before the loop, so it keeps the old
token instead of the fresh handshake's. -/
theorem claimC2_refresh_uses_stale_admin_token :
    (runAndNotifyStep exConn0 exEnvRefresh exLoopState).1 =
      { lastMessageId := 42, session := exSession1
        builderAdminConn := some exConn1
        clientAdminToken := "token-old" } ∧
    (runAndNotifyStep exConn0 exEnvRefresh exLoopState).1.clientAdminToken ≠
      exConn1.adminToken ∧
    (runAndNotifyStep exConn0 exEnvRefresh exLoopState).2 =
      [LoopEvent.polled 42, LoopEvent.handshakeAttempted,
       LoopEvent.adminTokenSet "token-old",
       LoopEvent.refreshSessionCalled 7 "sess-0"] :=
  ⟨by decide, by decide, by decide⟩

/-- Claim C5: an iteration touches the session-refresh machinery exactly
when the poll failed with the distinguished token-expired error; any
other poll error leaves the whole loop state (cursor included)
unchanged, is logged, and the loop moves on to the next iteration. -/
theorem claimC5_refresh_iff_token_expired
    (c : ActionsServiceAdminConnection) (env : IterEnv) (st : LoopState) :
    (refreshTouched (runAndNotifyStep c env st).2 = true ↔
      env.poll = PollOutcome.tokenExpired) ∧
    (env.poll = PollOutcome.failure →
      (runAndNotifyStep c env st).1 = st ∧
      (runAndNotifyStep c env st).2 =
        [LoopEvent.polled st.lastMessageId, LoopEvent.getMessageFailed]) := by
  rcases env with ⟨poll, hs, rf⟩
  constructor
  · cases poll with
    | message m =>
      by_cases hk : knownMessageType m.messageType = true <;>
        simp [runAndNotifyStep, refreshTouched, dispatchEventsOf, hk]
    | empty => simp [runAndNotifyStep, refreshTouched]
    | tokenExpired =>
      cases hs <;> cases rf <;> simp [runAndNotifyStep, refreshTouched]
    | failure => simp [runAndNotifyStep, refreshTouched]
  · intro hp
    simp only at hp
    subst hp
    exact ⟨rfl, rfl⟩

/-- Witness for claim C5: a non-token-expired poll error at cursor 42
leaves the state untouched and only logs. -/
theorem claimC5_witness :
    (runAndNotifyStep exConn0 exEnvFailure exLoopState).1 = exLoopState ∧
    (runAndNotifyStep exConn0 exEnvFailure exLoopState).2 =
      [LoopEvent.polled 42, LoopEvent.getMessageFailed] :=
  (claimC5_refresh_iff_token_expired exConn0 exEnvFailure exLoopState).2 rfl

/-- Claim C6: a delivered message advances the cursor to its id before
any dispatch event is emitted (the iteration trace is poll, then cursor
advance, then dispatch), and along any run whose polls deliver ids above
the supplied cursor the dispatched ids are strictly increasing — also
across token-refresh iterations, which leave the cursor unchanged. -/
theorem claimC6_cursor_then_dispatch_ordering
    (c : ActionsServiceAdminConnection) (envs : List IterEnv)
    (st : LoopState) (hsane : saneEnvs c envs st = true) :
    (∀ (env : IterEnv) (s : LoopState) (m : RunnerScaleSetMessage),
        env.poll = PollOutcome.message m →
        (runAndNotifyStep c env s).1.lastMessageId = m.messageId ∧
        (runAndNotifyStep c env s).2 =
          [LoopEvent.polled s.lastMessageId,
           LoopEvent.cursorAdvanced m.messageId] ++ dispatchEventsOf m) ∧
    List.Chain' (fun x y => x < y)
      (dispatchedIds (runAndNotifyRun c envs st).2) := by
  constructor
  · intro env s m hp
    constructor
    · rw [runAndNotifyStep_lastMessageId, hp]
    · rcases env with ⟨poll, hs, rf⟩
      simp only at hp
      subst hp
      rfl
  · exact (runAndNotifyRun_chain c envs st hsane).tail

/-- Witness for claim C6: a run delivering ids 5 and 9 around a token
refresh dispatches exactly `[5, 9]`, strictly increasing. -/
theorem claimC6_witness :
    List.Chain' (fun x y => x < y)
      (dispatchedIds (runAndNotifyRun exConn0 exEnvsRun exLoopStart).2) ∧
    dispatchedIds (runAndNotifyRun exConn0 exEnvsRun exLoopStart).2 =
      [5, 9] :=
  ⟨(claimC6_cursor_then_dispatch_ordering exConn0 exEnvsRun exLoopStart
      (by decide)).2, by decide⟩

/-- Claim C7 states the intended retry policy, but the loop decrements
`retries` while `i` advances: when every `CreateMessageSession` attempt
fails, only two attempts run (the guard `i < retries` fails at `i = 2`,
`retries = 1`) before the fatal error — which then reports "in 1
attempts" — and a 30-second sleep follows each failed attempt; a
first-attempt success still returns the session immediately. -/
theorem claimC7_session_retry_miscount :
    createRunnerScaleSetSession (fun _ => none) =
      { session := none, attemptsMade := 2
        errorReportedAttempts := some 1, sleepsSeconds := [30, 30] } ∧
    createRunnerScaleSetSession
        (fun i => if i == 0 then some exSession0 else none) =
      { session := some exSession0, attemptsMade := 1
        errorReportedAttempts := none, sleepsSeconds := [] } :=
  ⟨by decide, by decide⟩

/-- The cleanup goroutine's deletions all happen while it holds the
mutex. -/
theorem accessesGuarded_deletes (l : List (String × RegistrationToken)) :
    accessesGuarded 1 ((l.map fun kv => RegEvent.cacheDelete kv.1) ++
      [RegEvent.unlock]) = true := by
  induction l with
  | nil => rfl
  | cons kv rest ih => simpa [accessesGuarded] using ih

/-- Claim C8: a cached registration token is returned, with no API call
and no cache change, exactly when its expiry lies more than the
30-minute startup margin in the future; a stale or absent entry (with a
valid scope and a successful fetch) leads to a fresh token being
fetched, returned, and stored under the same key, followed by the
triggered cleanup — whose surviving entries are exactly the unexpired
ones; and every cache access of every path happens with the single
client mutex held. -/
theorem claimC8_registration_token_cache (now : Int)
    (fetch : Option (RegistrationToken × Nat)) (cache : RegTokenCache)
    (enterprise org repo : String) :
    (∀ rt,
      lookupToken cache (getRegistrationKey org repo enterprise) = some rt →
      now + runnerStartupTimeout < rt.expiresAt →
      GetRegistrationToken now fetch cache enterprise org repo =
        { token := some rt, isError := false, cache := cache
          events := [RegEvent.lock,
            RegEvent.cacheRead (getRegistrationKey org repo enterprise),
            RegEvent.unlock] }) ∧
    (∀ t x,
      (∀ rt,
        lookupToken cache (getRegistrationKey org repo enterprise) =
          some rt →
        rt.expiresAt ≤ now + runnerStartupTimeout) →
      getEnterpriseOrganizationAndRepo enterprise org repo = Except.ok x →
      fetch = some (t, 201) →
      GetRegistrationToken now fetch cache enterprise org repo =
        { token := some t, isError := false
          cache := cleanup now
            (storeToken cache (getRegistrationKey org repo enterprise) t)
          events :=
            [RegEvent.lock,
             RegEvent.cacheRead (getRegistrationKey org repo enterprise),
             RegEvent.fetchedToken,
             RegEvent.cacheWrite (getRegistrationKey org repo enterprise),
             RegEvent.unlock, RegEvent.lock] ++
            ((storeToken cache (getRegistrationKey org repo enterprise)
                t).filter (fun kv => decide (kv.2.expiresAt < now))).map
              (fun kv => RegEvent.cacheDelete kv.1) ++
            [RegEvent.unlock] }) ∧
    (∀ (c' : RegTokenCache) (kv : String × RegistrationToken),
      kv ∈ cleanup now c' ↔ kv ∈ c' ∧ ¬(kv.2.expiresAt < now)) ∧
    accessesGuarded 0
      (GetRegistrationToken now fetch cache enterprise org repo).events =
      true := by
  refine ⟨?_, ?_, ?_, ?_⟩
  · intro rt hlook hfresh
    have hp : tokenFresh now (some rt) = true := by
      simp only [tokenFresh, decide_eq_true_eq]
      exact hfresh
    unfold GetRegistrationToken
    dsimp only
    rw [hlook, if_pos hp]
  · intro t x hstale hvalid hfetch
    rcases hlk : lookupToken cache (getRegistrationKey org repo enterprise)
      with _ | rt
    · unfold GetRegistrationToken
      dsimp only
      rw [hlk, hvalid, hfetch]
      rfl
    · have hne : ¬(tokenFresh now (some rt) = true) := by
        simp only [tokenFresh, decide_eq_true_eq, not_lt]
        exact hstale rt hlk
      unfold GetRegistrationToken
      dsimp only
      rw [hlk, if_neg hne, hvalid, hfetch]
      rfl
  · intro c' kv
    unfold cleanup
    rw [List.mem_filter]
    simp
  · unfold GetRegistrationToken
    dsimp only
    split
    · rfl
    · split
      · rfl
      · split
        · rfl
        · split
          · rfl
          · rw [List.append_assoc]
            simp [accessesGuarded, accessesGuarded_deletes]

/-- Witness for claim C8: a stale cached entry (expiry 500, margin end
2800) is refetched and replaced; a live one (expiry 999999) is served
from the cache; both traces are lock-guarded. -/
theorem claimC8_witness :
    (GetRegistrationToken 1000 (some (exFreshToken, 201)) exRegCacheStale
        "" "myorg" "").token = some exFreshToken ∧
    (GetRegistrationToken 1000 none exRegCacheLive
        "" "myorg" "").token = some exLiveToken ∧
    accessesGuarded 0
      (GetRegistrationToken 1000 (some (exFreshToken, 201)) exRegCacheStale
        "" "myorg" "").events = true := by
  have h := claimC8_registration_token_cache 1000
    (some (exFreshToken, 201)) exRegCacheStale "" "myorg" ""
  have hB := h.2.1 exFreshToken ("", "myorg", "")
    (by
      intro rt hrt
      have h2 : some exStaleToken = some rt := hrt
      cases Option.some.inj h2
      decide)
    rfl rfl
  have h' := claimC8_registration_token_cache 1000 none exRegCacheLive
    "" "myorg" ""
  have hA := h'.1 exLiveToken rfl (by decide)
  exact ⟨by rw [hB], by rw [hA], h.2.2.2⟩

/-- Claim C9: given the runner list the source returned, `IsRunnerBusy`
yields `(false, RunnerNotFound)` when no runner carries the queried
name, the reported busy flag together with a `RunnerOffline` error when
the first matching runner is offline (the busy value is not discarded),
and the busy flag with no error for a listed, non-offline runner. -/
theorem claimC9_is_runner_busy (name : String) (runners : List GhRunner) :
    (runners.find? (fun r => r.name == name) = none →
      IsRunnerBusy name runners =
        (false, some (RunnerBusyError.runnerNotFound name))) ∧
    (∀ r, runners.find? (fun r => r.name == name) = some r →
      ((r.status = "offline" →
        IsRunnerBusy name runners =
          (r.busy, some (RunnerBusyError.runnerOffline name))) ∧
       (r.status ≠ "offline" →
        IsRunnerBusy name runners = (r.busy, none)))) := by
  induction runners with
  | nil =>
    constructor
    · intro _
      rfl
    · intro r hf
      simp at hf
  | cons r rest ih =>
    by_cases hname : (r.name == name) = true
    · constructor
      · intro hf
        simp only [List.find?_cons, hname] at hf
        exact Option.noConfusion hf
      · intro r' hf
        simp only [List.find?_cons, hname] at hf
        cases Option.some.inj hf
        constructor
        · intro hoff
          have hob : (r.status == "offline") = true := by
            simp [hoff]
          simp [IsRunnerBusy, hname, hob]
        · intro hoff
          have hob : (r.status == "offline") = false := by
            simpa using hoff
          simp [IsRunnerBusy, hname, hob]
    · have hnf : (r.name == name) = false := by
        simpa using hname
      constructor
      · intro hf
        simp only [List.find?_cons, hnf] at hf
        have hrec := ih.1 hf
        simpa [IsRunnerBusy, hnf] using hrec
      · intro r' hf
        simp only [List.find?_cons, hnf] at hf
        have hrec := ih.2 r' hf
        constructor
        · intro hoff
          simpa [IsRunnerBusy, hnf] using hrec.1 hoff
        · intro hoff
          simpa [IsRunnerBusy, hnf] using hrec.2 hoff

/-- Witness for claim C9: an unlisted name, an offline-but-busy runner
(the busy flag survives), and a listed idle runner. -/
theorem claimC9_witness :
    IsRunnerBusy "ghost" [{ name := "a", status := "online", busy := false }] =
      (false, some (RunnerBusyError.runnerNotFound "ghost")) ∧
    IsRunnerBusy "b" [{ name := "a", status := "online", busy := false },
        { name := "b", status := "offline", busy := true }] =
      (true, some (RunnerBusyError.runnerOffline "b")) ∧
    IsRunnerBusy "a" [{ name := "a", status := "online", busy := false }] =
      (false, none) :=
  ⟨(claimC9_is_runner_busy "ghost"
      [{ name := "a", status := "online", busy := false }]).1 rfl,
   ((claimC9_is_runner_busy "b"
      [{ name := "a", status := "online", busy := false },
       { name := "b", status := "offline", busy := true }]).2
      { name := "b", status := "offline", busy := true } rfl).1 rfl,
   ((claimC9_is_runner_busy "a"
      [{ name := "a", status := "online", busy := false }]).2
      { name := "a", status := "online", busy := false } rfl).2 (by decide)⟩
